import Mathlib

/-!
Shallow embedding of the message-intent classifier of the ai_receptionist
front-end: the input-field gate of src/frontend/src/utils/chat.ts and the
detectors, extractors and prompt compositor of
src/frontend/src/components/CardQuestion.tsx.  JavaScript strings are
modelled as Lean strings; toLowerCase is modelled on the ASCII range (all
phrase literals in the source are ASCII).
-/

/-- A chat message (src/frontend/src/types/index.ts, interface Message). -/
inductive MsgType
  | user
  | bot
deriving DecidableEq, Repr

/-- The body of a message: the source guards with typeof content === "string",
so a non-string body is modelled by a separate constructor. -/
inductive MessageContent
  | str (s : String)
  | other
deriving DecidableEq, Repr

structure Message where
  type : MsgType
  content : MessageContent
  timestamp : Nat
deriving DecidableEq, Repr

/-- typeof message.content === "string" ? message.content : "" -/
def safeContent : MessageContent → String
  | .str s => s
  | .other => ""

/-- JavaScript s.includes(pat). -/
def containsStr (s pat : String) : Bool :=
  s.toList.tails.any (fun t => pat.toList.isPrefixOf t)

/-- JavaScript s.startsWith(pat). -/
def startsWithStr (s pat : String) : Bool :=
  pat.toList.isPrefixOf s.toList

/-- ASCII lower-casing of one character (JavaScript toLowerCase on the
ASCII-only phrase alphabet used by the source). -/
def lowerChar (c : Char) : Char :=
  if 65 ≤ c.toNat && c.toNat ≤ 90 then Char.ofNat (c.toNat + 32) else c

/-- JavaScript s.toLowerCase(), ASCII range. -/
def lowerStr (s : String) : String :=
  String.mk (s.toList.map lowerChar)

/-- JavaScript s.trim(). -/
def trimStr (s : String) : String :=
  String.mk (((s.toList.dropWhile Char.isWhitespace).reverse.dropWhile
    Char.isWhitespace).reverse)

def splitCharAux (sep : Char) : List Char → List Char → List String
  | [], acc => [String.mk acc.reverse]
  | c :: cs, acc =>
    if c = sep then String.mk acc.reverse :: splitCharAux sep cs []
    else splitCharAux sep cs (c :: acc)

/-- JavaScript s.split(sep) for a one-character separator; never returns
the empty list ("".split yields [""]). -/
def splitChar (sep : Char) (s : String) : List String :=
  splitCharAux sep s.toList []

/-- safeContent.split("\n"): the Line Tokenizer. -/
def linesOf (s : String) : List String :=
  splitChar (Char.ofNat 10) s

/-- JavaScript parts.join(sep). -/
def joinWith (sep : String) : List String → String
  | [] => ""
  | [x] => x
  | x :: xs => x ++ sep ++ joinWith sep xs

/-- line.match(/^\d+\./): one or more ASCII digits followed by a period,
anchored at the start of the line. -/
def isOptionLine (line : String) : Bool :=
  let cs := line.toList
  !(cs.takeWhile Char.isDigit).isEmpty &&
    ((cs.dropWhile Char.isDigit).head? == some '.')

/-- lines.filter(line => line.match(/^\d+\./)) over a message body. -/
def optionLinesOf (c : String) : List String :=
  (linesOf c).filter isOptionLine

/-- lines[0]?.toLowerCase().includes("found") &&
lines[0]?.toLowerCase().includes("match") — identical in chat.ts and in
CardQuestion.tsx. -/
def isEmployeeSelection (lines : List String) : Bool :=
  containsStr (lowerStr lines.headI) "found" &&
    containsStr (lowerStr lines.headI) "match"

namespace chat

/-- The prompt of src/frontend/src/utils/chat.ts lines 10-12: line 0 in
employee-match mode, otherwise the non-option non-blank lines joined with
single spaces. -/
def promptOfContent (c : String) : String :=
  if isEmployeeSelection (linesOf c) then (linesOf c).headI
  else joinWith " "
    ((linesOf c).filter (fun line => !isOptionLine line && trimStr line != ""))

/-- The confirmation detector of chat.ts lines 13-20; its argument is the
already-compacted prompt, not the raw body. -/
def isConfirmation (prompt : String) : Bool :=
  (containsStr (lowerStr prompt) "confirm" &&
    containsStr (lowerStr prompt) "edit") ||
  (containsStr prompt "[confirm]" && containsStr prompt "[edit]") ||
  (containsStr (lowerStr prompt) "confirm" &&
    (containsStr (lowerStr prompt) "final check" ||
      containsStr (lowerStr prompt) "please review"))

/-- chat.ts line 21. -/
def isCompletionOf (c : String) : Bool :=
  containsStr (lowerStr c) "registration is complete"

/-- The keyword disjunction of chat.ts lines 23-34. -/
def keywordHit (c : String) : Bool :=
  containsStr (lowerStr c) "cnic" ||
  containsStr (lowerStr c) "phone" ||
  containsStr (lowerStr c) "mobile number" ||
  containsStr (lowerStr c) "mobile no" ||
  containsStr (lowerStr c) "phone number" ||
  containsStr (lowerStr c) "phone no" ||
  containsStr (lowerStr c) "mobile" ||
  containsStr (lowerStr c) "name" ||
  containsStr (lowerStr c) "host" ||
  containsStr (lowerStr c) "host name" ||
  containsStr (lowerStr c) "purpose" ||
  (containsStr (lowerStr c) "enter" &&
    !containsStr (lowerStr c) "none of these")

/-- The body of shouldShowInputField after the bot guard (chat.ts
lines 6-35). -/
def showBody (c : String) : Bool :=
  keywordHit c && (optionLinesOf c).isEmpty &&
    !isEmployeeSelection (linesOf c) &&
    !isConfirmation (promptOfContent c) &&
    !isCompletionOf c

/-- shouldShowInputField (chat.ts lines 4-36); the null-message guard is
modelled by an Option argument. -/
def shouldShowInputField : Option Message → Bool
  | none => false
  | some m =>
    match m.type with
    | .user => false
    | .bot => showBody (safeContent m.content)

end chat

/-- An option candidate: display text plus the value submitted on click
(CardQuestion.tsx, interface Option). -/
structure Opt where
  display : String
  value : String
deriving DecidableEq, Repr

namespace CardQuestion

/-- isCompletionMessage (CardQuestion.tsx lines 28-33). -/
def isCompletionMessage (m : Message) : Bool :=
  m.type == .bot &&
    (containsStr (lowerStr (safeContent m.content)) "registration is complete" ||
     containsStr (lowerStr (safeContent m.content)) "registration successful" ||
     containsStr (lowerStr (safeContent m.content)) "start new registration" ||
     containsStr (lowerStr (safeContent m.content))
       "please come back within 30 minutes before your scheduled time")

/-- isAdminSupportConfirmation (CardQuestion.tsx lines 57-65). -/
def isAdminSupportConfirmation (m : Message) : Bool :=
  m.type == .bot &&
    (containsStr (lowerStr (safeContent m.content)) "admin support team" &&
     containsStr (lowerStr (safeContent m.content)) "your check-in has been recorded" &&
     containsStr (lowerStr (safeContent m.content)) "name:" &&
     containsStr (lowerStr (safeContent m.content)) "cnic:" &&
     containsStr (lowerStr (safeContent m.content)) "phone:" &&
     containsStr (lowerStr (safeContent m.content)) "host:" &&
     containsStr (lowerStr (safeContent m.content)) "service:")

/-- The confirmation detector of CardQuestion.tsx lines 67-75; unlike
chat.isConfirmation it reads the full raw safeContent. -/
def isConfirmation (m : Message) : Bool :=
  m.type == .bot &&
    ((containsStr (lowerStr (safeContent m.content)) "confirm" &&
       containsStr (lowerStr (safeContent m.content)) "edit") ||
     (containsStr (safeContent m.content) "[confirm]" &&
       containsStr (safeContent m.content) "[edit]") ||
     (containsStr (lowerStr (safeContent m.content)) "confirm" &&
       (containsStr (lowerStr (safeContent m.content)) "final check" ||
        containsStr (lowerStr (safeContent m.content)) "please review")) ||
     isAdminSupportConfirmation m)

/-- The summary-field label test of CardQuestion.tsx lines 78-87. -/
def isSummaryLine (line : String) : Bool :=
  containsStr (lowerStr line) "name:" ||
  containsStr (lowerStr line) "cnic:" ||
  containsStr (lowerStr line) "phone:" ||
  containsStr (lowerStr line) "host:" ||
  containsStr (lowerStr line) "purpose:" ||
  containsStr (lowerStr line) "supplier:" ||
  containsStr (lowerStr line) "email:" ||
  containsStr (lowerStr line) "meeting:"

/-- summaryInfo (CardQuestion.tsx lines 78-87). -/
def summaryInfo (m : Message) : List String :=
  if isConfirmation m then (linesOf (safeContent m.content)).filter isSummaryLine
  else []

/-- The three emoji marker prefixes of CardQuestion.tsx lines 94-96 and
113-116, written with the exact code points stored in the source file. -/
def emojiMarker1 : String := "ðŸ§"

def emojiMarker2 : String := "ðŸ“¦"

def emojiMarker3 : String := "ðŸ“…"

/-- line.trim().startsWith on one of the three emoji markers. -/
def isEmojiLine (line : String) : Bool :=
  startsWithStr (trimStr line) emojiMarker1 ||
  startsWithStr (trimStr line) emojiMarker2 ||
  startsWithStr (trimStr line) emojiMarker3

/-- emojiOptions (CardQuestion.tsx lines 113-122). -/
def emojiOptions (c : String) : List Opt :=
  ((linesOf c).filter isEmojiLine).map (fun line =>
    if containsStr line "Guest" then ⟨trimStr line, "guest"⟩
    else if containsStr line "Vendor" then ⟨trimStr line, "vendor"⟩
    else if containsStr line "Meeting" then ⟨trimStr line, "prescheduled"⟩
    else ⟨trimStr line, trimStr line⟩)

/-- A line survives into the prompt join (CardQuestion.tsx lines 92-109):
not a numbered option, not an emoji marker line, not a summary line while
confirmation mode is on, and not blank. -/
def keepsLine (conf : Bool) (line : String) : Bool :=
  !isOptionLine line && !isEmojiLine line &&
    !(conf && isSummaryLine line) && trimStr line != ""

/-- The lines the Prompt Compositor keeps, in order. -/
def promptLines (m : Message) : List String :=
  (linesOf (safeContent m.content)).filter (keepsLine (isConfirmation m))

/-- The composed prompt (CardQuestion.tsx lines 90-110): line 0 verbatim
in employee-match mode, otherwise the kept lines joined with single
spaces — with no fallback of any kind. -/
def promptOf (m : Message) : String :=
  if isEmployeeSelection (linesOf (safeContent m.content)) then
    (linesOf (safeContent m.content)).headI
  else joinWith " " (promptLines m)

/-- employeeNames (CardQuestion.tsx lines 36-46): the kept lines become
options whose value is a 1-based running counter in line order. -/
def employeeNames (c : String) : List Opt :=
  (((linesOf c).filter (fun line =>
      !containsStr (lowerStr line) "found" &&
      !containsStr (lowerStr line) "none of these" &&
      trimStr line != "")).enum).map
    (fun p => ⟨trimStr p.2, toString (p.1 + 1)⟩)

/-- The synthetic none-option (CardQuestion.tsx lines 48-53). -/
def noneOption : Opt :=
  ⟨"None of these / Enter a different name", "0"⟩

/-- numberedOptions: the render loop of CardQuestion.tsx lines 267-278
splits each option line at its periods; the leading digit part is the
submitted value and the rejoined trimmed remainder is the display. -/
def numberedOptions (c : String) : List Opt :=
  (optionLinesOf c).map (fun line =>
    ⟨trimStr (joinWith "." (splitChar '.' line).tail),
      (splitChar '.' line).headI⟩)

/-- The character class of the intro-greeting normalisation
prompt.trim().replace(...) of CardQuestion.tsx line 125, with the exact
code points stored in the source. -/
def isQuoteLike (c : Char) : Bool :=
  c == Char.ofNat 226 || c == Char.ofNat 8364 || c == Char.ofNat 8482 ||
    c == Char.ofNat 39

/-- The replace call of CardQuestion.tsx line 125. -/
def replaceQuoteLike (s : String) : String :=
  String.mk (s.toList.map (fun c => if isQuoteLike c then Char.ofNat 39 else c))

/-- The fixed greeting text of CardQuestion.tsx line 125. -/
def introGreetingText : String :=
  "Oh look, another human at the gates of innovation. I\x27m your AI receptionist, not a therapist, so let\x27s keep this short. You are:"

/-- isIntroGreeting (CardQuestion.tsx line 125). -/
def isIntroGreeting (m : Message) : Bool :=
  containsStr (replaceQuoteLike (trimStr (promptOf m))) introGreetingText

/-- cvPrompt (CardQuestion.tsx line 157). -/
def cvPrompt (m : Message) : Bool :=
  containsStr (lowerStr (promptOf m)) "cv drop" &&
    containsStr (lowerStr (promptOf m)) "interview" &&
    containsStr (lowerStr (promptOf m)) "new joiner"

/-- adminSupportPrompt (CardQuestion.tsx line 170). -/
def adminSupportPrompt (m : Message) : Bool :=
  containsStr (lowerStr (promptOf m)) "admin support" &&
    containsStr (lowerStr (promptOf m)) "who are you here as"

/-- showButtons (CardQuestion.tsx line 184); adminSupportButtons is
non-empty exactly when adminSupportPrompt holds. -/
def showButtons (m : Message) : Bool :=
  m.type == .bot &&
    (!(optionLinesOf (safeContent m.content)).isEmpty ||
     !(emojiOptions (safeContent m.content)).isEmpty ||
     isConfirmation m ||
     isEmployeeSelection (linesOf (safeContent m.content)) ||
     isCompletionMessage m ||
     adminSupportPrompt m)

/-- The guard of the options grid (CardQuestion.tsx line 218):
visitorTypeButtons, cvFlowButtons and adminSupportButtons are non-empty
exactly when their prompt predicates hold. -/
def buttonsArea (m : Message) : Bool :=
  showButtons m || isIntroGreeting m || cvPrompt m || adminSupportPrompt m

/-- The completion button renders (CardQuestion.tsx lines 221-228). -/
def renderedCompletion (m : Message) : Bool :=
  buttonsArea m && isCompletionMessage m

/-- The employee-match buttons render (CardQuestion.tsx lines 243-264). -/
def renderedEmployeeMatch (m : Message) : Bool :=
  buttonsArea m && isEmployeeSelection (linesOf (safeContent m.content))

/-- The numbered-option buttons render (CardQuestion.tsx lines 267-278). -/
def renderedNumbered (m : Message) : Bool :=
  buttonsArea m && !isEmployeeSelection (linesOf (safeContent m.content)) &&
    !(optionLinesOf (safeContent m.content)).isEmpty

/-- The emoji-option buttons render (CardQuestion.tsx lines 281-290). -/
def renderedEmoji (m : Message) : Bool :=
  buttonsArea m && !(emojiOptions (safeContent m.content)).isEmpty

/-- The confirm/edit button pair renders (CardQuestion.tsx lines 327-344). -/
def renderedConfirmation (m : Message) : Bool :=
  buttonsArea m && isConfirmation m

end CardQuestion

/-- The central output type of the classifier (spec §3,
PresentationDirective). -/
inductive Directive
  | plainText (prompt : String)
  | freeTextPrompt (prompt : String)
  | numberedMenu (prompt : String) (options : List Opt)
  | emojiMenu (prompt : String) (options : List Opt)
  | employeeMatchMenu (prompt : String) (matchList : List Opt) (noneOpt : Opt)
  | confirmation (prompt : String) (summary : List String)
      (confirmValue editValue : String)
  | completion (prompt : String) (restartValue : String)
deriving DecidableEq, Repr

/-- Modelled from the spec: the Directive Resolver of spec §4.5.  The
repository has no single resolver function — the precedence lives only in
the render order of CardQuestion.tsx — so the dispatch (Completion, then
employee match, then confirmation, then numbered options, then emoji
options, then free text or plain text) is modelled from the spec over the
code-derived detectors and extractors above; the submitted values "new",
"confirm" and "edit" are the onSelect literals of CardQuestion.tsx. -/
def classify (m : Message) : Directive :=
  if CardQuestion.isCompletionMessage m then
    .completion (CardQuestion.promptOf m) "new"
  else if isEmployeeSelection (linesOf (safeContent m.content)) then
    .employeeMatchMenu (CardQuestion.promptOf m)
      (CardQuestion.employeeNames (safeContent m.content))
      CardQuestion.noneOption
  else if CardQuestion.isConfirmation m then
    .confirmation (CardQuestion.promptOf m) (CardQuestion.summaryInfo m)
      "confirm" "edit"
  else if !(optionLinesOf (safeContent m.content)).isEmpty then
    .numberedMenu (CardQuestion.promptOf m)
      (CardQuestion.numberedOptions (safeContent m.content))
  else if !(CardQuestion.emojiOptions (safeContent m.content)).isEmpty then
    .emojiMenu (CardQuestion.promptOf m)
      (CardQuestion.emojiOptions (safeContent m.content))
  else if chat.keywordHit (safeContent m.content) then
    .freeTextPrompt (CardQuestion.promptOf m)
  else
    .plainText (CardQuestion.promptOf m)

/-- A bot message with a plain string body. -/
def botMsg (c : String) : Message :=
  ⟨.bot, .str c, 0⟩

/-- C1: the claim says the confirmation detector is always evaluated on
the full raw lowercased text, so that whether shouldShowInputField
suppresses the free-text input depends only on that raw text.  On the body
"enter confirm final\ncheck" every raw-text suppressor is off — the
raw-text confirmation detector of CardQuestion is false, there are no
numbered options, no employee-match banner and no completion phrase — and
the free-text keyword test hits, yet shouldShowInputField returns false:
chat.ts evaluates the confirmation detector on the compacted prompt, where
the two lines join into "enter confirm final check" and suddenly contain
"final check". -/
theorem C1_input_gate_reads_compacted_prompt :
    chat.shouldShowInputField (some (botMsg "enter confirm final\ncheck")) = false ∧
    CardQuestion.isConfirmation (botMsg "enter confirm final\ncheck") = false ∧
    chat.keywordHit "enter confirm final\ncheck" = true ∧
    (optionLinesOf "enter confirm final\ncheck").isEmpty = true ∧
    isEmployeeSelection (linesOf "enter confirm final\ncheck") = false ∧
    chat.isCompletionOf "enter confirm final\ncheck" = false ∧
    chat.isConfirmation (chat.promptOfContent "enter confirm final\ncheck") = true := by
  decide

/-- C2 counterexample: the rendering flags of CardQuestion.tsx are not
mutually exclusive — the bot message "Registration is complete\n1. Restart"
renders both the completion button and the numbered-option buttons at
once. -/
theorem C2_counterexample :
    CardQuestion.renderedCompletion (botMsg "Registration is complete\n1. Restart") = true ∧
    CardQuestion.renderedNumbered (botMsg "Registration is complete\n1. Restart") = true := by
  decide

/-- C2 amended: the only pairwise exclusion the code guarantees among the
interaction affordances is between the numbered menu and the
employee-match menu — the numbered-option loop is guarded by the negation
of the employee-match flag, so the two never render together. -/
theorem C2_numbered_employee_exclusive (m : Message) :
    (CardQuestion.renderedNumbered m && CardQuestion.renderedEmployeeMatch m) = false := by
  cases h : isEmployeeSelection (linesOf (safeContent m.content)) <;>
    simp [CardQuestion.renderedNumbered, CardQuestion.renderedEmployeeMatch, h]

/-- C3 counterexample: for the body "1. Apple" the only line is consumed
as a numbered option, the filtered join is empty, and the composed prompt
is the empty string — not the first raw line "1. Apple" that the claimed
fallback would produce. -/
theorem C3_counterexample :
    CardQuestion.promptOf (botMsg "1. Apple") = "" ∧
    (linesOf "1. Apple").headI = "1. Apple" ∧
    ("" : String) ≠ "1. Apple" := by
  decide

/-- C3 amended: the composed prompt has no fallback: outside employee-match
mode, whenever every line is consumed by the filter the prompt is the
empty string; in employee-match mode the prompt is line 0, which is
necessarily non-empty because it contains "found". -/
theorem C3_no_prompt_fallback (m : Message) :
    (isEmployeeSelection (linesOf (safeContent m.content)) = true →
      CardQuestion.promptOf m ≠ "") ∧
    (isEmployeeSelection (linesOf (safeContent m.content)) = false →
      CardQuestion.promptLines m = [] → CardQuestion.promptOf m = "") := by
  constructor
  · intro he
    have he' : containsStr (lowerStr (linesOf (safeContent m.content)).headI) "found" = true ∧
        containsStr (lowerStr (linesOf (safeContent m.content)).headI) "match" = true := by
      simpa [isEmployeeSelection] using he
    unfold CardQuestion.promptOf
    rw [if_pos he]
    intro hempty
    rw [hempty] at he'
    exact absurd he'.1 (by decide)
  · intro he hl
    unfold CardQuestion.promptOf
    rw [if_neg (by simp [he]), hl]
    rfl

/-- C3 amended, witness at the body "1. Apple". -/
theorem C3_no_prompt_fallback_witness :
    CardQuestion.promptOf (botMsg "1. Apple") = "" :=
  (C3_no_prompt_fallback (botMsg "1. Apple")).2 (by decide) (by decide)

/-- C4: any bot body whose lowercased text contains
"registration is complete" resolves to the Completion directive with
restart value "new", whatever else the body contains. -/
theorem C4_completion_preempts (c : String) (ts : Nat)
    (h : containsStr (lowerStr c) "registration is complete" = true) :
    classify ⟨.bot, .str c, ts⟩ =
      .completion (CardQuestion.promptOf ⟨.bot, .str c, ts⟩) "new" := by
  have hc : CardQuestion.isCompletionMessage ⟨.bot, .str c, ts⟩ = true := by
    simp [CardQuestion.isCompletionMessage, safeContent, h]
  simp [classify, hc]

/-- C4 witness: a completion body that also carries a digit-prefixed line
and the words confirm and edit still resolves to Completion "new". -/
theorem C4_completion_preempts_witness :
    classify ⟨.bot, .str "Registration is complete\n1. Restart\nconfirm or edit", 0⟩ =
      .completion
        (CardQuestion.promptOf
          ⟨.bot, .str "Registration is complete\n1. Restart\nconfirm or edit", 0⟩)
        "new" :=
  C4_completion_preempts "Registration is complete\n1. Restart\nconfirm or edit" 0
    (by decide)

/-- C5: the employee-match example resolves to EmployeeMatchMenu with the
prompt equal to line 0, 1-based counter values in line order, and the
single synthetic none-option with value "0". -/
theorem C5_employee_match_example :
    classify (botMsg "We found 2 matches:\nJohn Smith\nJane Doe") =
      .employeeMatchMenu "We found 2 matches:"
        [⟨"John Smith", "1"⟩, ⟨"Jane Doe", "2"⟩]
        ⟨"None of these / Enter a different name", "0"⟩ ∧
    (linesOf "We found 2 matches:\nJohn Smith\nJane Doe").headI =
      "We found 2 matches:" := by
  decide

/-- C6: the confirm-or-edit example resolves to Confirmation with the two
field lines as the summary in original order and option values exactly
"confirm" and "edit"; "Phone: 12345" is not a numbered-option line, so no
numbered menu is in play. -/
theorem C6_confirmation_example :
    classify (botMsg "Please confirm or edit.\nName: John\nPhone: 12345") =
      .confirmation "Please confirm or edit." ["Name: John", "Phone: 12345"]
        "confirm" "edit" ∧
    isOptionLine "Phone: 12345" = false ∧
    optionLinesOf "Please confirm or edit.\nName: John\nPhone: 12345" = [] := by
  decide

/-- C7: the numbered-menu example resolves to NumberedMenu; each option
line is split at its first period, the leading digit string is the value
and the trimmed remainder the display, in original order. -/
theorem C7_numbered_menu_example :
    classify (botMsg "Pick one:\n1. Apple\n2. Banana") =
      .numberedMenu "Pick one:" [⟨"Apple", "1"⟩, ⟨"Banana", "2"⟩] ∧
    optionLinesOf "Pick one:\n1. Apple\n2. Banana" = ["1. Apple", "2. Banana"] := by
  decide

/-- C8: the keyword body with no markers shows the input field and
resolves to FreeTextPrompt; adding the line "1. Skip" suppresses the input
field; and in general any detected numbered option, employee-match banner,
prompt-level confirmation or completion phrase forces
shouldShowInputField to false. -/
theorem C8_free_text_gating :
    chat.shouldShowInputField (some (botMsg "Please enter your phone number")) = true ∧
    classify (botMsg "Please enter your phone number") =
      .freeTextPrompt "Please enter your phone number" ∧
    chat.shouldShowInputField
      (some (botMsg "Please enter your phone number\n1. Skip")) = false ∧
    optionLinesOf "Please enter your phone number\n1. Skip" = ["1. Skip"] ∧
    ∀ (c : String) (ts : Nat),
      ((optionLinesOf c).isEmpty = false ∨
        isEmployeeSelection (linesOf c) = true ∨
        chat.isConfirmation (chat.promptOfContent c) = true ∨
        chat.isCompletionOf c = true) →
      chat.shouldShowInputField (some ⟨.bot, .str c, ts⟩) = false := by
  refine ⟨by decide, by decide, by decide, by decide, ?_⟩
  intro c ts h
  show chat.showBody c = false
  rcases h with h | h | h | h <;> simp [chat.showBody, h]

/-- C8 witness: the general suppression applied to the concrete body with
the numbered line "1. Skip". -/
theorem C8_free_text_gating_witness :
    chat.shouldShowInputField
      (some ⟨.bot, .str "Please enter your phone number\n1. Skip", 0⟩) = false :=
  C8_free_text_gating.2.2.2.2 "Please enter your phone number\n1. Skip" 0
    (Or.inl (by decide))

/-- C9: the empty body and the non-string body both resolve to PlainText
with an empty prompt and do not show the input field; a non-string body is
read as the empty string. -/
theorem C9_degenerate_inputs :
    classify (botMsg "") = .plainText "" ∧
    classify ⟨.bot, .other, 0⟩ = .plainText "" ∧
    chat.shouldShowInputField (some (botMsg "")) = false ∧
    chat.shouldShowInputField (some ⟨.bot, .other, 0⟩) = false ∧
    safeContent .other = "" := by
  decide

/-- C10: a user message never shows the input field, whatever its body;
neither does a missing message. -/
theorem C10_user_messages_never_show_input :
    ∀ (c : MessageContent) (ts : Nat),
      chat.shouldShowInputField (some ⟨.user, c, ts⟩) = false ∧
      chat.shouldShowInputField none = false := by
  intro c ts
  exact ⟨rfl, rfl⟩


